import Mathlib

/-!
Verification of the guest firmware memory-management and VirtIO discovery
core: a shallow embedding of `vmbase/src/memory/page_table.rs` and
`pvmfw/src/virtio/pci.rs`, with theorems about their behaviour.
-/

namespace Virt

/-- Flag-set model of the external bitflags type
`aarch64_paging::paging::Attributes`: one Boolean per named flag that
`vmbase/src/memory/page_table.rs` uses. `union` and `contains` mirror the
bitflags operations of the same names. -/
structure Attributes where
  valid : Bool := false
  tableOrPage : Bool := false
  deviceNgnre : Bool := false
  normal : Bool := false
  readOnly : Bool := false
  nonGlobal : Bool := false
  executeNever : Bool := false
  dbm : Bool := false
  swflag0 : Bool := false
deriving DecidableEq, Repr

/-- Bitflags union: a flag is set in the union iff it is set in either side. -/
def Attributes.union (a b : Attributes) : Attributes where
  valid := a.valid || b.valid
  tableOrPage := a.tableOrPage || b.tableOrPage
  deviceNgnre := a.deviceNgnre || b.deviceNgnre
  normal := a.normal || b.normal
  readOnly := a.readOnly || b.readOnly
  nonGlobal := a.nonGlobal || b.nonGlobal
  executeNever := a.executeNever || b.executeNever
  dbm := a.dbm || b.dbm
  swflag0 := a.swflag0 || b.swflag0

/-- Bitflags containment: every flag set in `b` is also set in `a`. -/
def Attributes.contains (a b : Attributes) : Bool :=
  (!b.valid || a.valid) && (!b.tableOrPage || a.tableOrPage) &&
  (!b.deviceNgnre || a.deviceNgnre) && (!b.normal || a.normal) &&
  (!b.readOnly || a.readOnly) && (!b.nonGlobal || a.nonGlobal) &&
  (!b.executeNever || a.executeNever) && (!b.dbm || a.dbm) &&
  (!b.swflag0 || a.swflag0)

/-- Hardware VALID bit. -/
def Attributes.VALID : Attributes := { valid := true }

/-- Page/table selector bit of a descriptor. -/
def Attributes.TABLE_OR_PAGE : Attributes := { tableOrPage := true }

/-- Device-nGnRE memory attribute index (MAIR_EL1.Attr0). -/
def Attributes.DEVICE_NGNRE : Attributes := { deviceNgnre := true }

/-- Normal write-back memory attribute index (MAIR_EL1.Attr1). -/
def Attributes.NORMAL : Attributes := { normal := true }

/-- Read-only access permission. -/
def Attributes.READ_ONLY : Attributes := { readOnly := true }

/-- Non-global mapping (ASID-tagged). -/
def Attributes.NON_GLOBAL : Attributes := { nonGlobal := true }

/-- Execute-never permission. -/
def Attributes.EXECUTE_NEVER : Attributes := { executeNever := true }

/-- Hardware dirty-bit-management flag. -/
def Attributes.DBM : Attributes := { dbm := true }

/-- First software-defined flag of the descriptor. -/
def Attributes.SWFLAG_0 : Attributes := { swflag0 := true }

/-- Software bit used to indicate a device that should be lazily mapped
(`page_table.rs` line 24). -/
def MMIO_LAZY_MAP_FLAG : Attributes := Attributes.SWFLAG_0

/-- Attribute profile for normal memory (`page_table.rs` line 29). -/
def MEMORY : Attributes :=
  (Attributes.VALID.union Attributes.NORMAL).union Attributes.NON_GLOBAL

/-- Attribute profile for lazily mapped device memory (`page_table.rs` line 31). -/
def DEVICE_LAZY : Attributes :=
  (MMIO_LAZY_MAP_FLAG.union Attributes.DEVICE_NGNRE).union Attributes.EXECUTE_NEVER

/-- Attribute profile for validated device memory (`page_table.rs` line 33). -/
def DEVICE : Attributes := DEVICE_LAZY.union Attributes.VALID

/-- Attribute profile for code (`page_table.rs` line 34). -/
def CODE : Attributes := MEMORY.union Attributes.READ_ONLY

/-- Attribute profile for writable data (`page_table.rs` line 35). -/
def DATA : Attributes := MEMORY.union Attributes.EXECUTE_NEVER

/-- Attribute profile for read-only data (`page_table.rs` line 36). -/
def RODATA : Attributes := DATA.union Attributes.READ_ONLY

/-- Attribute profile for dirty-bit-managed data (`page_table.rs` line 37). -/
def DATA_DBM : Attributes := RODATA.union Attributes.DBM

/-- Deepest translation-table level on this configuration
(constant local to `is_leaf_pte`). -/
def LEAF_PTE_LEVEL : Nat := 3

/-- Embedding of `is_leaf_pte` (`page_table.rs` lines 139-147): checks whether
a PTE at a given level is a page or block descriptor. -/
def is_leaf_pte (flags : Attributes) (level : Nat) : Bool :=
  if flags.contains Attributes.TABLE_OR_PAGE then
    level == LEAF_PTE_LEVEL
  else
    decide (level < LEAF_PTE_LEVEL)

/-- Constructor-argument model of the external `aarch64_paging::idmap::IdMap`:
the table is fully determined by the arguments of `IdMap::new`. -/
structure IdMap where
  asid : Nat
  rootLevel : Nat
deriving DecidableEq, Repr

/-- Model of `IdMap::new(asid, rootLevel)`. -/
def IdMap.new (asid rootLevel : Nat) : IdMap := ⟨asid, rootLevel⟩

/-- ASID used for the underlying page table (`PageTable::ASID`). -/
def PageTable.ASID : Nat := 1

/-- Level of the underlying page table root page (`PageTable::ROOT_LEVEL`). -/
def PageTable.ROOT_LEVEL : Nat := 1

/-- Constant `TCR_EL1_TG0_MASK` from `PageTable::default`. -/
def TCR_EL1_TG0_MASK : Nat := 0x3

/-- Constant `TCR_EL1_TG0_SHIFT` from `PageTable::default`. -/
def TCR_EL1_TG0_SHIFT : Nat := 14

/-- Constant `TCR_EL1_TG0_SIZE_4KB` from `PageTable::default`. -/
def TCR_EL1_TG0_SIZE_4KB : Nat := 0b00

/-- Constant `TCR_EL1_T0SZ_MASK` from `PageTable::default`. -/
def TCR_EL1_T0SZ_MASK : Nat := 0x3f

/-- Constant `TCR_EL1_T0SZ_SHIFT` from `PageTable::default`. -/
def TCR_EL1_T0SZ_SHIFT : Nat := 0

/-- Constant `TCR_EL1_T0SZ_39_VA_BITS` from `PageTable::default`. -/
def TCR_EL1_T0SZ_39_VA_BITS : Nat := 64 - 39

/-- Embedding of `PageTable::default` (`page_table.rs` lines 53-69). The value
read from the `tcr_el1` system register is taken as input; the two
`assert_eq!` checks become the `none` (assertion failure / fatal) outcome, and
on success the table is built by `IdMap::new(ASID, ROOT_LEVEL)`. -/
def PageTable.default (tcr_el1 : Nat) : Option IdMap :=
  if (tcr_el1 >>> TCR_EL1_TG0_SHIFT) &&& TCR_EL1_TG0_MASK = TCR_EL1_TG0_SIZE_4KB then
    if (tcr_el1 >>> TCR_EL1_T0SZ_SHIFT) &&& TCR_EL1_T0SZ_MASK = TCR_EL1_T0SZ_39_VA_BITS then
      some (IdMap.new PageTable.ASID PageTable.ROOT_LEVEL)
    else none
  else none

/-- Model of `aarch64_paging::paging::MemoryRegion`: a half-open virtual
address range. The source field named `end` is rendered `stop`. -/
structure MemoryRegion where
  start : Nat
  stop : Nat
deriving DecidableEq, Repr

/-- Model of `MemoryRegion::new(start, end)`. -/
def MemoryRegion.new (start stop : Nat) : MemoryRegion := ⟨start, stop⟩

/-- Model of Rust `core::ops::Range` over a 64-bit machine integer
(`usize` and `u64` coincide on aarch64, so both are rendered as this type
and the `as usize` cast is the identity). The source field named `end` is
rendered `stop`. -/
structure URange where
  start : Nat
  stop : Nat
deriving DecidableEq, Repr

/-- Model of the external `aarch64_paging::MapError` (representative
variants of the failure cases named by the spec). -/
inductive MapError
  | addressRange
  | invalidVirtualAddress
  | regionBackwards
  | pteUpdateFault
deriving DecidableEq, Repr

/-- Behaviour of the external `IdMap::map_range` as a state transformer over
an abstract table state `σ`: the repository code only forwards to it, so
theorems quantify over every possible behaviour. -/
structure IdMapOps (σ : Type) where
  map_range : σ → MemoryRegion → Attributes → Except MapError σ

/-- Embedding of the private `PageTable::map_range` (`page_table.rs` lines
128-130): builds a `MemoryRegion` from the range bounds and forwards it with
the attributes to the underlying `IdMap`. -/
def PageTable.map_range {σ : Type} (ops : IdMapOps σ) (s : σ) (range : URange)
    (attr : Attributes) : Except MapError σ :=
  ops.map_range s (MemoryRegion.new range.start range.stop) attr

/-- Embedding of `PageTable::map_device_lazy` (`page_table.rs` lines 93-95). -/
def PageTable.map_device_lazy {σ : Type} (ops : IdMapOps σ) (s : σ)
    (range : URange) : Except MapError σ :=
  PageTable.map_range ops s range DEVICE_LAZY

/-- Embedding of `PageTable::map_device` (`page_table.rs` lines 99-101). -/
def PageTable.map_device {σ : Type} (ops : IdMapOps σ) (s : σ)
    (range : URange) : Except MapError σ :=
  PageTable.map_range ops s range DEVICE

/-- Embedding of `PageTable::map_data` (`page_table.rs` lines 105-107). -/
def PageTable.map_data {σ : Type} (ops : IdMapOps σ) (s : σ)
    (range : URange) : Except MapError σ :=
  PageTable.map_range ops s range DATA

/-- Embedding of `PageTable::map_data_dbm` (`page_table.rs` lines 111-113). -/
def PageTable.map_data_dbm {σ : Type} (ops : IdMapOps σ) (s : σ)
    (range : URange) : Except MapError σ :=
  PageTable.map_range ops s range DATA_DBM

/-- Embedding of `PageTable::map_code` (`page_table.rs` lines 117-119). -/
def PageTable.map_code {σ : Type} (ops : IdMapOps σ) (s : σ)
    (range : URange) : Except MapError σ :=
  PageTable.map_range ops s range CODE

/-- Embedding of `PageTable::map_rodata` (`page_table.rs` lines 123-125). -/
def PageTable.map_rodata {σ : Type} (ops : IdMapOps σ) (s : σ)
    (range : URange) : Except MapError σ :=
  PageTable.map_range ops s range RODATA

/-- Hardware descriptor of one translation-table entry: output-address bits
plus the attribute word. -/
structure Descriptor where
  addr : Nat
  flags : Attributes
deriving DecidableEq, Repr

/-- One entry met during a table walk: its level, the virtual-address chunk
it covers, and its descriptor. -/
structure WalkEntry where
  level : Nat
  region : MemoryRegion
  desc : Descriptor
deriving DecidableEq, Repr

/-- Half-open interval overlap of two regions. -/
def regionsOverlap (a b : MemoryRegion) : Bool :=
  decide (a.start < b.stop) && decide (b.start < a.stop)

/-- Modelled from the spec: the walk of the external
`aarch64_paging::idmap::IdMap::modify_range`, absent from `src/`, which the
spec describes as "applies a caller-supplied pure transformation to every
leaf PTE's attribute word intersecting `range`, without changing the mapped
physical address". Leafness is decided by the repository's `is_leaf_pte`. -/
def modify_range_walk (entries : List WalkEntry) (range : MemoryRegion)
    (f : Attributes → Attributes) : List WalkEntry :=
  entries.map fun e =>
    if is_leaf_pte e.desc.flags e.level && regionsOverlap e.region range then
      { e with desc := { e.desc with flags := f e.desc.flags } }
    else e

/-- Embedding of `PageTable::modify_range` (`page_table.rs` lines 133-135):
builds a `MemoryRegion` from the range bounds and forwards the updater to the
underlying walk. -/
def PageTable.modify_range (entries : List WalkEntry) (range : URange)
    (f : Attributes → Attributes) : List WalkEntry :=
  modify_range_walk entries (MemoryRegion.new range.start range.stop) f

/-- Model of `pvmfw`'s `RebootReason` (declared in `pvmfw/src/entry.rs`,
outside `src/`; representative variants, `internalError` being the one this
module produces). -/
inductive RebootReason
  | invalidFdt
  | invalidPayload
  | internalError
  | unexpectedError
deriving DecidableEq, Repr

/-- Model of the error type of `MemoryTracker::map_mmio_range` (declared in
`vmbase`'s memory tracker, outside `src/`; representative variants). -/
inductive MemoryTrackerError
  | full
  | overlaps
  | failedToMap
deriving DecidableEq, Repr

/-- Model of `fdtpci::PciInfo`: the CAM range (`usize` bounds) and the BAR
range (`u64` bounds). -/
structure PciInfo where
  cam_range : URange
  bar_range : URange
deriving DecidableEq, Repr

/-- Behaviour of the external `MemoryTracker::map_mmio_range` as a state
transformer over an abstract tracker state `σ`: the repository code only
calls it, so theorems quantify over every possible behaviour. -/
structure TrackerOps (σ : Type) where
  map_mmio_range : σ → URange → Except MemoryTrackerError σ

/-- The BAR range converted element-wise by `as usize` (the identity on
aarch64), as in `pci.rs` line 37. -/
def barAsUsize (info : PciInfo) : URange :=
  ⟨info.bar_range.start, info.bar_range.stop⟩

/-- Embedding of `map_mmio` (`pci.rs` lines 30-44), instrumented with the
list of ranges passed to `MemoryTracker::map_mmio_range`: the CAM range is
requested first; on its failure the function returns
`RebootReason::InternalError` at the first `?`, otherwise the BAR range is
requested, any failure again becoming `RebootReason::InternalError`. -/
def map_mmio_traced {σ : Type} (T : TrackerOps σ) (s : σ) (info : PciInfo) :
    Except RebootReason σ × List URange :=
  match T.map_mmio_range s info.cam_range with
  | .error _ => (.error .internalError, [info.cam_range])
  | .ok s1 =>
    match T.map_mmio_range s1 (barAsUsize info) with
    | .error _ => (.error .internalError, [info.cam_range, barAsUsize info])
    | .ok s2 => (.ok s2, [info.cam_range, barAsUsize info])

/-- Result of `map_mmio`: the first component of the instrumented embedding. -/
def map_mmio {σ : Type} (T : TrackerOps σ) (s : σ) (info : PciInfo) :
    Except RebootReason σ :=
  (map_mmio_traced T s info).1

/-- Ranges `map_mmio` passed to `MemoryTracker::map_mmio_range`, in order. -/
def map_mmio_requests {σ : Type} (T : TrackerOps σ) (s : σ) (info : PciInfo) :
    List URange :=
  (map_mmio_traced T s info).2

/-- Model of `virtio_drivers`' `DeviceType` (representative variants). -/
inductive DeviceType
  | network
  | block
  | console
  | socket
  | other
deriving DecidableEq, Repr

/-- Model of the external `fdtpci::PciError` (representative variants). The
embedding of `find_virtio_devices` never constructs one: its only `Ok`-typed
exit is the final `Ok(())`. -/
inductive PciError
  | invalidConfig
  | unexpectedBarType
deriving DecidableEq, Repr

/-- Observable behaviour of one PCI function during the scan: the data the
external crates (`virtio_drivers`, `fdtpci`) report about it. `virtioType`
is the result of `virtio_device_type(&info)`; the three Booleans are the
success of `PciTransport::new`, `VirtIOBlk::new` and `read_block(0, ..)`. -/
structure FunctionInfo where
  status : Nat := 0
  command : Nat := 0
  virtioType : Option DeviceType := none
  transportOk : Bool := true
  blkNewOk : Bool := true
  capacity : Nat := 0
  readOk : Bool := true
deriving DecidableEq, Repr

/-- One enumerated bus entry: the device/function indices of the
`DeviceFunction` and the function's observable behaviour. -/
structure BusEntry where
  device : Nat
  function : Nat
  info : FunctionInfo
deriving DecidableEq, Repr

/-- Place where the body of `find_virtio_devices` can abort by an
uncatchable `unwrap`/`expect`:
`transportNew` is `.unwrap()` on `PciTransport::new` (`pci.rs` line 57);
`blkNew` is `.expect("failed to create blk driver")` (line 65);
`readBlock` is `.expect("Failed to read block device")` (line 68). -/
inductive PanicSite
  | transportNew
  | blkNew
  | readBlock
deriving DecidableEq, Repr

/-- Outcome of the scan: the `Ok(())` return, a typed `PciError` return
(present in the signature `Result<(), PciError>`), or an abort at one of the
`unwrap`/`expect` sites. -/
inductive ScanOutcome
  | ok
  | pciError (e : PciError)
  | panic (site : PanicSite)
deriving DecidableEq, Repr

/-- Body of the loop of `find_virtio_devices` (`pci.rs` lines 48-71) for one
function: non-VirtIO functions are only logged; for a VirtIO function the
transport is built (`unwrap` aborts on failure), and for a block device the
driver is built and one block is read (each `expect` aborts on failure).
Returns the abort site, or `none` when the iteration completes. -/
def processFunction (i : FunctionInfo) : Option PanicSite :=
  match i.virtioType with
  | none => none
  | some t =>
    if !i.transportOk then some PanicSite.transportNew
    else if t = DeviceType.block then
      if !i.blkNewOk then some PanicSite.blkNew
      else if !i.readOk then some PanicSite.readBlock
      else none
    else none

/-- The loop of `find_virtio_devices` over the enumerated entries: the first
aborting iteration ends the run as a panic; when no iteration aborts the
function returns `Ok(())`. -/
def processFunctions : List BusEntry → ScanOutcome
  | [] => ScanOutcome.ok
  | e :: rest =>
    match processFunction e.info with
    | some site => ScanOutcome.panic site
    | none => processFunctions rest

/-- Device/function indices the loop actually visits: a panic in an
iteration ends the walk there, so later entries are never visited. -/
def scanTrace : List BusEntry → List (Nat × Nat)
  | [] => []
  | e :: rest =>
    match processFunction e.info with
    | some _ => [(e.device, e.function)]
    | none => (e.device, e.function) :: scanTrace rest

/-- Configuration-space content of bus 0: what each device/function slot
holds, if anything. -/
def PciBus : Type := Nat → Nat → Option FunctionInfo

/-- All device/function index pairs in the order the external
`PciRoot::enumerate_bus(0)` iterator steps through them. Modelled from the
spec: ascending by device index (0..32) then function index (0..8). -/
def allDevFns : List (Nat × Nat) :=
  (List.range 32).flatMap fun d => (List.range 8).map fun f => (d, f)

/-- Enumeration of the present functions of bus 0, in iterator order. -/
def enumerateBus (bus : PciBus) : List BusEntry :=
  allDevFns.filterMap fun df => (bus df.1 df.2).map fun i => ⟨df.1, df.2, i⟩

/-- Embedding of `find_virtio_devices` (`pci.rs` lines 47-73): runs the loop
over the enumerated bus. -/
def find_virtio_devices (bus : PciBus) : ScanOutcome :=
  processFunctions (enumerateBus bus)

/-- Linearised bus/device/function index of an entry (bus fixed at 0). -/
def dfIdx (e : BusEntry) : Nat := e.device * 8 + e.function

/-- Sequence of identified VirtIO devices in visit order. -/
def identifiedDevices (bus : PciBus) : List (Nat × Nat × DeviceType) :=
  (enumerateBus bus).filterMap fun e =>
    e.info.virtioType.map fun t => (e.device, e.function, t)

/-- Concrete function behaviour: a VirtIO block device whose single-block
self-test read fails. -/
def blkFailInfo : FunctionInfo :=
  { virtioType := some DeviceType.block, transportOk := true,
    blkNewOk := true, capacity := 1024, readOk := false }

/-- Concrete bus content: one device function at 0/0, a block device whose
self-test read fails. -/
def c3bus : PciBus := fun d f =>
  if d == 0 && f == 0 then some blkFailInfo else none

/-- Concrete function behaviour: a VirtIO console function whose transport
construction fails on malformed configuration-space data. -/
def badTransportInfo : FunctionInfo :=
  { virtioType := some DeviceType.console, transportOk := false }

/-- Concrete function behaviour: a healthy VirtIO block device. -/
def goodBlkInfo : FunctionInfo :=
  { virtioType := some DeviceType.block, transportOk := true,
    blkNewOk := true, capacity := 2048, readOk := true }

/-- Concrete bus content: a malformed function at 0/0 followed by a healthy
block device at 1/0. -/
def c4bus : PciBus := fun d f =>
  if d == 0 && f == 0 then some badTransportInfo
  else if d == 1 && f == 0 then some goodBlkInfo
  else none

/-- Concrete tracker behaviour whose `map_mmio_range` always succeeds. -/
def okTracker : TrackerOps Unit :=
  { map_mmio_range := fun _ _ => Except.ok () }

/-- Concrete tracker behaviour whose `map_mmio_range` always fails. -/
def failTracker : TrackerOps Unit :=
  { map_mmio_range := fun _ _ => Except.error MemoryTrackerError.failedToMap }

/-- Concrete PCI description with distinct CAM and BAR ranges. -/
def samplePciInfo : PciInfo :=
  { cam_range := ⟨0x10000, 0x20000⟩, bar_range := ⟨0x10000000, 0x10001000⟩ }

/-- A prefix of cleanly processed entries does not change the outcome of the
rest of the loop. -/
theorem processFunctions_append_none : ∀ (pre rest : List BusEntry),
    (∀ x ∈ pre, processFunction x.info = none) →
    processFunctions (pre ++ rest) = processFunctions rest := by
  intro pre
  induction pre with
  | nil => intro rest _; rfl
  | cons a t ih =>
    intro rest h
    have ha : processFunction a.info = none := h a (List.mem_cons_self a t)
    show processFunctions (a :: (t ++ rest)) = processFunctions rest
    simp only [processFunctions, ha]
    exact ih rest fun x hx => h x (List.mem_cons_of_mem a hx)

/-- A prefix of cleanly processed entries is visited in full before the rest
of the loop runs. -/
theorem scanTrace_append_none : ∀ (pre rest : List BusEntry),
    (∀ x ∈ pre, processFunction x.info = none) →
    scanTrace (pre ++ rest) =
      pre.map (fun x => (x.device, x.function)) ++ scanTrace rest := by
  intro pre
  induction pre with
  | nil => intro rest _; rfl
  | cons a t ih =>
    intro rest h
    have ha : processFunction a.info = none := h a (List.mem_cons_self a t)
    show scanTrace (a :: (t ++ rest)) = _
    simp only [scanTrace, ha, List.map_cons, List.cons_append]
    exact congrArg _ (ih rest fun x hx => h x (List.mem_cons_of_mem a hx))

/-- The loop of `find_virtio_devices` never produces a typed `PciError`: its
outcomes are only the final `Ok(())` or a panic. -/
theorem processFunctions_ne_pciError (l : List BusEntry) (e : PciError) :
    processFunctions l ≠ ScanOutcome.pciError e := by
  induction l with
  | nil => simp [processFunctions]
  | cons a t ih =>
    simp only [processFunctions]
    cases processFunction a.info <;> simp [ih]

/-- Mapping a projection over a `filterMap` yields a sublist of mapping a
compatible projection over the original list. -/
theorem filterMap_map_sublist {α β γ : Type} (l : List α) (g : α → Option β)
    (m : β → γ) (mo : α → γ) (h : ∀ a b, g a = some b → m b = mo a) :
    List.Sublist ((l.filterMap g).map m) (l.map mo) := by
  induction l with
  | nil => simp
  | cons a t ih =>
    cases hg : g a with
    | none =>
      simp only [List.filterMap_cons, hg, List.map_cons]
      exact ih.cons (mo a)
    | some b =>
      simp only [List.filterMap_cons, hg, List.map_cons, h a b hg]
      exact ih.cons₂ (mo a)

/-- C1: the `DEVICE_LAZY` encoding is non-executable device memory without
the hardware VALID bit and with the software lazy-map flag (`SWFLAG_0`), and
the `DEVICE` (validated) encoding is exactly `DEVICE_LAZY` with VALID added,
so it still carries the lazy-map flag and EXECUTE_NEVER. -/
theorem device_lazy_and_device_encoding :
    DEVICE_LAZY.executeNever = true ∧
    DEVICE_LAZY.deviceNgnre = true ∧
    DEVICE_LAZY.valid = false ∧
    DEVICE_LAZY.swflag0 = true ∧
    DEVICE = { DEVICE_LAZY with valid := true } ∧
    DEVICE.swflag0 = true ∧
    DEVICE.executeNever = true := by
  decide

/-- C2: `is_leaf_pte` returns true iff the TABLE_OR_PAGE bit is set and the
level is the deepest level 3, or the bit is unset and the level is strictly
below 3. -/
theorem is_leaf_pte_iff (flags : Attributes) (level : Nat) :
    LEAF_PTE_LEVEL = 3 ∧
    (is_leaf_pte flags level = true ↔
      ((flags.contains Attributes.TABLE_OR_PAGE = true ∧ level = LEAF_PTE_LEVEL) ∨
       (flags.contains Attributes.TABLE_OR_PAGE = false ∧ level < LEAF_PTE_LEVEL))) := by
  refine ⟨rfl, ?_⟩
  unfold is_leaf_pte
  cases h : flags.contains Attributes.TABLE_OR_PAGE <;> simp [h]

/-- C6: the `PageTable` default constructor succeeds exactly when the TG0
field of the given `tcr_el1` value encodes 4 KiB granules and the T0SZ field
encodes 39 virtual-address bits (`64 - 39`); any other value is an assertion
failure, and every successful construction is the same fixed
`IdMap::new(ASID, ROOT_LEVEL)` table. -/
theorem page_table_default_spec (tcr : Nat) :
    ((PageTable.default tcr).isSome = true ↔
      ((tcr >>> TCR_EL1_TG0_SHIFT) &&& TCR_EL1_TG0_MASK = TCR_EL1_TG0_SIZE_4KB ∧
       (tcr >>> TCR_EL1_T0SZ_SHIFT) &&& TCR_EL1_T0SZ_MASK = TCR_EL1_T0SZ_39_VA_BITS)) ∧
    (∀ m, PageTable.default tcr = some m →
      m = IdMap.new PageTable.ASID PageTable.ROOT_LEVEL) := by
  unfold PageTable.default
  split_ifs with h1 h2
  · refine ⟨by simp [h1, h2], ?_⟩
    intro m hm
    exact (Option.some.inj hm).symm
  · simp [h1, h2]
  · simp [h1]

/-- Witness for C6: the register value 25 (TG0 = 4 KiB, T0SZ = 25) passes
both assertions and yields the fixed table. -/
theorem page_table_default_spec_witness :
    (PageTable.default 25).isSome = true ∧
    IdMap.new 1 1 = IdMap.new PageTable.ASID PageTable.ROOT_LEVEL :=
  ⟨(page_table_default_spec 25).1.mpr ⟨by decide, by decide⟩,
   (page_table_default_spec 25).2 (IdMap.new 1 1) (by decide)⟩

/-- C7: each of the six profile-specific mapping entry points returns
exactly the result of the generic `map_range` applied to the same range with
that profile's fixed attribute constant, for every underlying table
behaviour, state and range. -/
theorem mapping_entry_points_are_map_range {σ : Type} (ops : IdMapOps σ)
    (s : σ) (r : URange) :
    PageTable.map_code ops s r = PageTable.map_range ops s r CODE ∧
    PageTable.map_rodata ops s r = PageTable.map_range ops s r RODATA ∧
    PageTable.map_data ops s r = PageTable.map_range ops s r DATA ∧
    PageTable.map_data_dbm ops s r = PageTable.map_range ops s r DATA_DBM ∧
    PageTable.map_device_lazy ops s r = PageTable.map_range ops s r DEVICE_LAZY ∧
    PageTable.map_device ops s r = PageTable.map_range ops s r DEVICE :=
  ⟨rfl, rfl, rfl, rfl, rfl, rfl⟩

/-- C5: `map_mmio` returns `Ok` exactly when `map_mmio_range` succeeds on
the CAM range and then on the BAR range, and every failure surfaces as
`RebootReason::InternalError`. -/
theorem map_mmio_ok_iff {σ : Type} (T : TrackerOps σ) (s : σ) (info : PciInfo) :
    ((∃ s2, map_mmio T s info = Except.ok s2) ↔
      (∃ s1 s2, T.map_mmio_range s info.cam_range = Except.ok s1 ∧
        T.map_mmio_range s1 (barAsUsize info) = Except.ok s2)) ∧
    (∀ r, map_mmio T s info = Except.error r →
      r = RebootReason.internalError) := by
  unfold map_mmio map_mmio_traced
  cases h1 : T.map_mmio_range s info.cam_range with
  | error e1 => simp
  | ok s1 =>
    cases h2 : T.map_mmio_range s1 (barAsUsize info) with
    | error e2 => simp [h2]
    | ok s2 => simp [h2]

/-- Witness for C5: with a tracker whose mappings both succeed, `map_mmio`
returns `Ok`. -/
theorem map_mmio_ok_iff_witness :
    ∃ s2, map_mmio okTracker () samplePciInfo = Except.ok s2 :=
  (map_mmio_ok_iff okTracker () samplePciInfo).1.mpr ⟨(), (), rfl, rfl⟩

/-- C10: the first range `map_mmio` requests is always the CAM range, and
when that CAM mapping fails the request list is exactly the CAM range —
no BAR mapping is ever requested — and the result is
`RebootReason::InternalError`. -/
theorem map_mmio_cam_before_bar {σ : Type} (T : TrackerOps σ) (s : σ)
    (info : PciInfo) :
    ((map_mmio_requests T s info).head? = some info.cam_range) ∧
    (∀ e, T.map_mmio_range s info.cam_range = Except.error e →
      map_mmio_requests T s info = [info.cam_range] ∧
      map_mmio T s info = Except.error RebootReason.internalError) := by
  unfold map_mmio_requests map_mmio map_mmio_traced
  cases h1 : T.map_mmio_range s info.cam_range with
  | error e1 => simp
  | ok s1 =>
    cases h2 : T.map_mmio_range s1 (barAsUsize info) with
    | error e2 => simp [h2]
    | ok s2 => simp [h2]

/-- Witness for C10: with a tracker that rejects every mapping, only the CAM
range is ever requested and the result is the internal-error reboot code. -/
theorem map_mmio_cam_before_bar_witness :
    map_mmio_requests failTracker () samplePciInfo = [samplePciInfo.cam_range] ∧
    map_mmio failTracker () samplePciInfo =
      Except.error RebootReason.internalError :=
  (map_mmio_cam_before_bar failTracker () samplePciInfo).2
    MemoryTrackerError.failedToMap rfl

/-- C3 counterexample: on a bus whose only function is a VirtIO block device
with a failing self-test read, the scan ends in the `expect` abort at the
read — a panic constructor, not the typed `pciError` constructor. -/
theorem selftest_failure_panics_counterexample :
    find_virtio_devices c3bus = ScanOutcome.panic PanicSite.readBlock := by
  decide

/-- C3 (amended): when the scan, having cleanly processed every earlier
function, reaches a VirtIO block device whose single-block self-test read
fails, it aborts with the read-block panic; it returns neither `Ok` nor a
typed `PciError`, so no partial device list and no catchable value is
produced. -/
theorem selftest_failure_is_fatal_abort (pre : List BusEntry) (e : BusEntry)
    (rest : List BusEntry)
    (hpre : ∀ x ∈ pre, processFunction x.info = none)
    (hv : e.info.virtioType = some DeviceType.block)
    (ht : e.info.transportOk = true)
    (hb : e.info.blkNewOk = true)
    (hr : e.info.readOk = false) :
    processFunctions (pre ++ e :: rest) = ScanOutcome.panic PanicSite.readBlock ∧
    processFunctions (pre ++ e :: rest) ≠ ScanOutcome.ok ∧
    ∀ err, processFunctions (pre ++ e :: rest) ≠ ScanOutcome.pciError err := by
  have hmain : processFunctions (pre ++ e :: rest) =
      ScanOutcome.panic PanicSite.readBlock := by
    rw [processFunctions_append_none pre (e :: rest) hpre]
    simp [processFunctions, processFunction, hv, ht, hb, hr]
  exact ⟨hmain, by simp [hmain], by simp [hmain]⟩

/-- Witness for C3 (amended): the single failing block device at 0/0. -/
theorem selftest_failure_is_fatal_abort_witness :
    processFunctions ([] ++ (⟨0, 0, blkFailInfo⟩ : BusEntry) :: []) =
      ScanOutcome.panic PanicSite.readBlock ∧
    processFunctions ([] ++ (⟨0, 0, blkFailInfo⟩ : BusEntry) :: []) ≠
      ScanOutcome.ok ∧
    ∀ err, processFunctions ([] ++ (⟨0, 0, blkFailInfo⟩ : BusEntry) :: []) ≠
      ScanOutcome.pciError err :=
  selftest_failure_is_fatal_abort [] ⟨0, 0, blkFailInfo⟩ []
    (by intro x hx; cases hx) rfl rfl rfl rfl

/-- C4 counterexample: with a malformed VirtIO function at 0/0 and a healthy
block device at 1/0, the scan aborts at the transport `unwrap` — a panic,
not a typed `PciError` — and the remaining function 1/0 is never visited. -/
theorem malformed_function_panics_counterexample :
    find_virtio_devices c4bus = ScanOutcome.panic PanicSite.transportNew ∧
    scanTrace (enumerateBus c4bus) = [(0, 0)] := by
  decide

/-- C4 (amended): a function whose transport construction fails on malformed
configuration data makes the scan abort with the transport panic; no
function after it is visited, and `find_virtio_devices` never returns a
typed `PciError` for any bus content. -/
theorem malformed_function_aborts_scan (pre : List BusEntry) (e : BusEntry)
    (rest : List BusEntry)
    (hpre : ∀ x ∈ pre, processFunction x.info = none)
    (hbad : processFunction e.info = some PanicSite.transportNew) :
    processFunctions (pre ++ e :: rest) =
      ScanOutcome.panic PanicSite.transportNew ∧
    scanTrace (pre ++ e :: rest) =
      pre.map (fun x => (x.device, x.function)) ++ [(e.device, e.function)] ∧
    ∀ (bus : PciBus) err, find_virtio_devices bus ≠ ScanOutcome.pciError err := by
  refine ⟨?_, ?_, ?_⟩
  · rw [processFunctions_append_none pre (e :: rest) hpre]
    simp [processFunctions, hbad]
  · rw [scanTrace_append_none pre (e :: rest) hpre]
    simp [scanTrace, hbad]
  · intro bus err
    exact processFunctions_ne_pciError (enumerateBus bus) err

/-- Witness for C4 (amended): the malformed function at 0/0 followed by a
healthy block device at 1/0. -/
theorem malformed_function_aborts_scan_witness :
    processFunctions ([] ++ (⟨0, 0, badTransportInfo⟩ : BusEntry) ::
        [⟨1, 0, goodBlkInfo⟩]) = ScanOutcome.panic PanicSite.transportNew ∧
    scanTrace ([] ++ (⟨0, 0, badTransportInfo⟩ : BusEntry) ::
        [⟨1, 0, goodBlkInfo⟩]) =
      ([] : List BusEntry).map (fun x => (x.device, x.function)) ++ [(0, 0)] ∧
    ∀ (bus : PciBus) err, find_virtio_devices bus ≠ ScanOutcome.pciError err :=
  malformed_function_aborts_scan [] ⟨0, 0, badTransportInfo⟩
    [⟨1, 0, goodBlkInfo⟩] (by intro x hx; cases hx) rfl

/-- C8: the rewrite operation changes nothing but the attribute words of the
leaf PTEs that intersect the range: every entry keeps its output address,
its level and its covered region, entries that are not leaves or do not
intersect the range are untouched, and intersecting leaves get exactly the
updater applied to their attribute word. -/
theorem modify_range_frame (entries : List WalkEntry) (range : URange)
    (f : Attributes → Attributes) :
    ((PageTable.modify_range entries range f).map fun e => e.desc.addr) =
      (entries.map fun e => e.desc.addr) ∧
    ((PageTable.modify_range entries range f).map fun e => (e.level, e.region)) =
      (entries.map fun e => (e.level, e.region)) ∧
    ∀ (i : Nat), (PageTable.modify_range entries range f)[i]? =
      (entries[i]?).map fun (e : WalkEntry) =>
        if is_leaf_pte e.desc.flags e.level &&
            regionsOverlap e.region (MemoryRegion.new range.start range.stop) then
          { e with desc := { e.desc with flags := f e.desc.flags } }
        else e := by
  unfold PageTable.modify_range modify_range_walk
  refine ⟨?_, ?_, ?_⟩
  · rw [List.map_map]
    apply List.map_congr_left
    intro a _
    dsimp only [Function.comp]
    split <;> rfl
  · rw [List.map_map]
    apply List.map_congr_left
    intro a _
    dsimp only [Function.comp]
    split <;> rfl
  · intro i
    exact List.getElem?_map _ _ _

set_option maxRecDepth 8192 in
/-- C9: with the configuration-space content fixed (two extensionally equal
bus contents), the enumeration, the scan outcome and the identified device
sequence coincide run-to-run, and the visit order is strictly ascending in
the linearised bus/device/function index. -/
theorem scan_reproducible_and_ascending (b1 b2 : PciBus)
    (h : ∀ d f, b1 d f = b2 d f) :
    enumerateBus b1 = enumerateBus b2 ∧
    find_virtio_devices b1 = find_virtio_devices b2 ∧
    identifiedDevices b1 = identifiedDevices b2 ∧
    ((enumerateBus b1).map dfIdx).Pairwise (fun a b => a < b) := by
  have hb : b1 = b2 := funext fun d => funext fun f => h d f
  subst hb
  refine ⟨rfl, rfl, rfl, ?_⟩
  have h256 : allDevFns.map (fun df => df.1 * 8 + df.2) = List.range 256 := by
    decide
  have hsub : List.Sublist ((enumerateBus b1).map dfIdx)
      (allDevFns.map fun df => df.1 * 8 + df.2) := by
    apply filterMap_map_sublist
    intro a b hab
    cases hx : b1 a.1 a.2 with
    | none => rw [hx] at hab; cases hab
    | some i =>
      rw [hx] at hab
      have h2 : some (⟨a.1, a.2, i⟩ : BusEntry) = some b := hab
      rw [← Option.some.inj h2]
      rfl
  rw [h256] at hsub
  exact (List.pairwise_lt_range 256).sublist hsub

/-- Witness for C9: the concrete two-device bus, compared with itself. -/
theorem scan_reproducible_and_ascending_witness :
    find_virtio_devices c4bus = find_virtio_devices c4bus ∧
    ((enumerateBus c4bus).map dfIdx).Pairwise (fun a b => a < b) :=
  ⟨(scan_reproducible_and_ascending c4bus c4bus fun _ _ => rfl).2.1,
   (scan_reproducible_and_ascending c4bus c4bus fun _ _ => rfl).2.2.2⟩

end Virt
